import Mathlib

/-!
Verification of the QCFractal server bootstrap / lifecycle layer.

Shallow embedding of:
* `src/qcfractal/cli/qcfractal_server.py` — `parse_args` post-processing,
  `server_init`, `server_config`, `main`;
* `src/dqm_server/server.py` — `DQMServer.__init__`, `DQMServer.start`.

Python dictionaries are modelled as association lists with first-match
lookup; `{**a, **b}` (where entries of `b` override entries of `a`) is
`pyMerge a b = b ++ a`.  File-system effects and datastore-adapter calls
are modelled as an action trace, with a small `World` state summarising
the base directory, the persisted configuration record and the datastore
data directory.
-/

set_option autoImplicit false

namespace QCFractal

/-- A Python `dict` with string keys and values, as an association list.
Lookup takes the first match; later overriding writes prepend. -/
abbrev AssocMap := List (String × String)

/-- First-match lookup, the semantics of `d[k]` / `d.get(k)`. -/
def getVal : AssocMap → String → Option String
  | [], _ => none
  | (k, v) :: rest, key => if k = key then some v else getVal rest key

/-- `d[k] = v`: prepending overrides any earlier binding under first-match lookup. -/
def setKey (m : AssocMap) (k v : String) : AssocMap := (k, v) :: m

/-- `{**a, **b}`: entries of `b` override entries of `a`. -/
def pyMerge (a b : AssocMap) : AssocMap := b ++ a

/-- The three key groups of a `FractalConfig` dictionary: top-level keys
`database` and `fractal` plus the scalar `base_folder`. -/
structure ConfigDict where
  database : AssocMap
  fractal : AssocMap
  base_folder : Option String
deriving DecidableEq, Repr

/-- Modelled from the spec: `DatabaseSettings` declared defaults
(`src/qcfractal/config.py` is not included under `src/`); §3: a
DatastoreSettings record holds {host, port, username, optional secret,
backend-kind tag, project name} and "unset optional fields fall back to
declared defaults".  The optional secret (`password`) has no default and
stays absent when unset. -/
def databaseDefaults : AssocMap :=
  [("host", "localhost"), ("port", "5432"), ("username", "qcfractal"),
   ("backend", "postgres"), ("project_name", "qcfractal_default")]

/-- Modelled from the spec: `FractalServerSettings` declared defaults
(§3: {listen port, log file path, heartbeat interval, feature toggles,
security mode}), every field having a declared default. -/
def fractalDefaults : AssocMap :=
  [("name", "QCFractal Server"), ("port", "7777"), ("logfile", "qcfractal.log"),
   ("heartbeat_frequency", "300"), ("allow_read", "True"),
   ("compress_response", "True"), ("security", "None")]

/-- Modelled from the spec: the default base directory ("a well-known
per-user location", §6). -/
def defaultBaseFolder : String := "~/.qca/qcfractal"

/-- Modelled from the spec: `FractalConfig(**d).dict()` — every field is
present, with declared defaults filling fields the input left unset
(pydantic `.dict()` semantics; explicit fields override defaults). -/
def dictFull (c : ConfigDict) : ConfigDict :=
  { database := pyMerge databaseDefaults c.database,
    fractal := pyMerge fractalDefaults c.fractal,
    base_folder := some (c.base_folder.getD defaultBaseFolder) }

/-- Modelled from the spec: the field names of `FractalServerSettings`
(`src/qcfractal/config.py` is not included under `src/`), used by the
`parse_args` routing test `key in FractalServerSettings.field_names()`;
the ServerSettings field list of §3. -/
def fractalFieldNames : List String :=
  ["name", "port", "logfile", "heartbeat_frequency", "allow_read",
   "compress_response", "security"]

/-! ### `parse_args` post-processing (qcfractal_server.py lines 49-69)

The parsed argparse namespace is a list of `(key, optional value)` pairs;
the loop drops `None` values and routes each remaining key into
`ret["database"]`, `ret["fractal"]` or top-level `ret`. -/

/-- `listIsPrefixOf sub s`: `sub` is a prefix of `s`. -/
def listIsPrefixOf : List Char → List Char → Bool
  | [], _ => true
  | _ :: _, [] => false
  | a :: as, b :: bs => a == b && listIsPrefixOf as bs

/-- `sub` occurs as a contiguous substring of the second list. -/
def listContainsSub (sub : List Char) : List Char → Bool
  | [] => sub.isEmpty
  | c :: rest => listIsPrefixOf sub (c :: rest) || listContainsSub sub rest

/-- Python `sub in s` on strings: contiguous-substring containment. -/
def containsSubstr (s sub : String) : Bool := listContainsSub sub.data s.data

/-- The grouped result `ret` built by `parse_args`: `ret["database"]`,
`ret["fractal"]`, and the remaining top-level keys. -/
structure ParsedArgs where
  database : AssocMap
  fractal : AssocMap
  other : AssocMap
deriving DecidableEq, Repr

/-- One iteration of the `for key, value in args.items()` loop
(lines 54-63): `None` values are skipped; a key containing `"db"` goes to
the database group with `"db_"` removed; otherwise a server-settings
field name goes to the fractal group; otherwise top level. -/
def routeArg (acc : ParsedArgs) (kv : String × Option String) : ParsedArgs :=
  match kv.2 with
  | none => acc
  | some v =>
    if containsSubstr kv.1 "db" then
      { acc with database := setKey acc.database (String.replace kv.1 "db_" "") v }
    else if kv.1 ∈ fractalFieldNames then
      { acc with fractal := setKey acc.fractal kv.1 v }
    else
      { acc with other := setKey acc.other kv.1 v }

/-- The whole post-processing loop of `parse_args` over the parsed
argument list. -/
def parse_args_route (args : List (String × Option String)) : ParsedArgs :=
  args.foldl routeArg ⟨[], [], []⟩

/-! ### Action-trace model of `server_init` / `server_config` / `main`
(qcfractal_server.py lines 74-166) -/

/-- The paths derived from the base directory, plus an abstract temporary
path (used only to state the write-temp-then-rename property). -/
inductive FPath
  | basePath
  | configFilePath
  | databasePath
  | tempPath
deriving DecidableEq, Repr

/-- Observable effects of the CLI operations:
* `mkdirBase` — `config.base_path.mkdir(exist_ok=True)` (line 79);
* `shutdownPostgres` — `shutdown_postgres(config)` (line 100);
* `removeDataDir` — `shutil.rmtree(str(config.database_path), ...)` (line 101);
* `printRecord c` — echoing a configuration dictionary (lines 117, 133);
* `mkdirDataDir` — `config.database_path.mkdir(exist_ok=True)` (line 120);
* `initializePostgres` — `initialize_postgres(config, quiet=False)` (line 121);
* `writeFileAt p c` — writing serialized record `c` to path `p` (line 125);
* `rename` — a file-system rename (never performed by the source; used to
  state the atomic-replace property);
* `reportMissing p` — the "Could not find ..." message naming `p`
  (lines 148, 151).
The actions of lines 100-125 sit on the `init` path after line 80 and
are therefore never emitted (see `server_init`); the constructors are
kept so their absence from every trace can be stated. -/
inductive Action
  | mkdirBase
  | shutdownPostgres
  | removeDataDir
  | printRecord (c : ConfigDict)
  | mkdirDataDir
  | initializePostgres
  | writeFileAt (p : FPath) (c : ConfigDict)
  | rename (src dst : FPath)
  | reportMissing (p : FPath)
deriving DecidableEq, Repr

/-- The on-disk state at the base directory: whether the base directory
exists, the persisted configuration record (if any), and whether the
datastore data directory exists. -/
structure World where
  baseDirExists : Bool
  configFile : Option ConfigDict
  dataDirExists : Bool
deriving DecidableEq, Repr

/-- How one operation run ends: `sys.exit(code)`, the bare
`raise Exception()` of line 166, the uncaught `NameError` of line 80,
or a normal return (process exit 0). -/
inductive Outcome
  | exited (code : Nat)
  | raisedException
  | raisedNameError
  | finished
deriving DecidableEq, Repr

/-- An uncaught Python exception (the `NameError` of line 80, the bare
`Exception` of line 166) terminates the interpreter with a traceback and
exit status 1, so every outcome other than a normal return or
`sys.exit(0)` is a non-zero abort. -/
def abortsNonZero : Outcome → Bool
  | .exited c => c != 0
  | .raisedException => true
  | .raisedNameError => true
  | .finished => false

/-- An operation run: the emitted action trace and how it ended. -/
structure RunResult where
  trace : List Action
  outcome : Outcome
deriving DecidableEq, Repr

/-- Effect of one action on the on-disk state. -/
def applyAction (w : World) : Action → World
  | .mkdirBase => { w with baseDirExists := true }
  | .removeDataDir => { w with dataDirExists := false }
  | .mkdirDataDir => { w with dataDirExists := true }
  | .writeFileAt .configFilePath c => { w with configFile := some c }
  | _ => w

/-- Effect of a whole trace on the on-disk state. -/
def applyTrace (w : World) (tr : List Action) : World := tr.foldl applyAction w

/-- The fixed confirmation literal of qcfractal_server.py line 98. -/
def confirmationSentinel : String := "REMOVEALLDATA"

/-- `server_init(config)` (lines 74-128).  Line 79 runs
`config.base_path.mkdir(exist_ok=True)`; line 80 then evaluates
`overwrite = args.get("overwrite", False)`, but no name `args` is in
scope there — `args` is a local of `main` and the module has no global
of that name — so every `init` run raises `NameError` at line 80.  The
existence check (line 83), the exit-2 branch (lines 86-88), the sentinel
comparison and the destructive `shutdown_postgres`/`rmtree` branch
(lines 90-104), the redacted settings echo (lines 113-117), the data
directory creation and postgres initialization (lines 120-121) and the
configuration write (line 125) are all unreachable.  The configuration,
the overwrite flag and the operator's typed confirmation are kept as
inputs of the model (the CLI supplies them) but cannot influence the
run. -/
def server_init (_w : World) (_cfg : ConfigDict) (_overwrite : Bool)
    (_typedInput : String) : RunResult :=
  { trace := [Action.mkdirBase], outcome := .raisedNameError }

/-- `server_config(config)` (lines 130-133): print `config.dict()`
verbatim — no redaction. -/
def server_config (cfg : ConfigDict) : RunResult :=
  { trace := [Action.printRecord (dictFull cfg)], outcome := .finished }

/-- Lines 154-160: read the persisted record, take `config.dict(skip_defaults=True)`
(exactly the CLI-supplied fields) and rebuild the record with
`file_dict["fractal"] = {**config_dict.pop("fractal"), **file_dict.pop("fractal")}`;
the database group and the base folder come from the file dictionary. -/
def mergedConfig (fileRec cliCfg : ConfigDict) : ConfigDict :=
  let file_dict := dictFull fileRec
  let config_dict := cliCfg
  { database := file_dict.database,
    fractal := pyMerge config_dict.fractal file_dict.fractal,
    base_folder := file_dict.base_folder }

/-- The operator command: `init`, `config` or `start`. -/
inductive Cmd
  | init
  | config
  | start
deriving DecidableEq, Repr

/-- Lines 146-166 for `cmd != "init"`: existence checks on the base path
and the configuration file path (exit 1 naming the missing path), then
the merge, then dispatch — `server_config` for `config`, and the
unconditional `raise Exception()` of line 166 for `start` (the server
construction of lines 168-227 is unreachable). -/
def mainNonInit (w : World) (cliCfg : ConfigDict) (isConfig : Bool) : RunResult :=
  if !w.baseDirExists then
    { trace := [Action.reportMissing FPath.basePath], outcome := .exited 1 }
  else
    match w.configFile with
    | none =>
      { trace := [Action.reportMissing FPath.configFilePath], outcome := .exited 1 }
    | some fileRec =>
      let merged := mergedConfig fileRec cliCfg
      if isConfig then server_config merged
      else { trace := [], outcome := .raisedException }

/-- `main` (lines 135-166): dispatch on the subcommand. -/
def main (cmd : Cmd) (w : World) (cliCfg : ConfigDict) (overwrite : Bool)
    (typedInput : String) : RunResult :=
  match cmd with
  | .init => server_init w cliCfg overwrite typedInput
  | .config => mainNonInit w cliCfg true
  | .start => mainNonInit w cliCfg false

/-! ### `DQMServer` constructor and run loop (src/dqm_server/server.py) -/

/-- Observable steps of `DQMServer.__init__`:
logger setup (lines 32-33), attaching a file handler (lines 36-41),
info logging (lines 43, 69), the database-socket construction (line 46),
grabbing the event loop (line 49) and binding the listener (line 64). -/
inductive DqmAction
  | setLoggerLevel
  | addFileHandler (path : String)
  | logInfo (msg : String)
  | dbConnect
  | getLoop
  | appListen (port : Nat)
deriving DecidableEq, Repr

/-- Python attribute lookup `x.logfile` when `x` is a `str`: a string has
no attribute named `logfile`, so the lookup finds nothing and the access
raises `AttributeError` (server.py line 36 evaluates
`logging.FileHandler(logfile_name.logfile)` on the path argument). -/
def strAttrLogfile (_ : String) : Option String := none

/-- How `DQMServer.__init__` ends: an uncaught exception carrying the
steps completed before the raise, or success with the full step trace. -/
inductive DqmInitResult
  | raised (partialTrace : List DqmAction) (err : String)
  | ok (trace : List DqmAction)
deriving DecidableEq, Repr

/-- The steps of `__init__` after the logging block: the "Logfile set"
info line (line 43), `db_socket_factory` (line 46), grabbing the IOLoop
(line 49), `self.app.listen(self.port)` (line 64) and the final info
line (line 69). -/
def dqmFinishInit (t : List DqmAction) (port : Nat) : DqmInitResult :=
  .ok (t ++ [DqmAction.logInfo "Logfile set", DqmAction.dbConnect,
             DqmAction.getLoop, DqmAction.appListen port,
             DqmAction.logInfo "initialized"])

/-- `DQMServer.__init__(port=..., ..., logfile_name=...)` (lines 12-69),
with the database options elided (they only parameterise `dbConnect`).
When `logfile_name` is not `None`, line 36 accesses
`logfile_name.logfile` on the string before anything else in that block. -/
def dqm_init (port : Nat) (logfile_name : Option String) : DqmInitResult :=
  let t0 := [DqmAction.setLoggerLevel]
  match logfile_name with
  | some s =>
    match strAttrLogfile s with
    | none => .raised t0 "AttributeError"
    | some p => dqmFinishInit (t0 ++ [DqmAction.addFileHandler p]) port
  | none => dqmFinishInit t0 port

/-! ### Helper lemmas -/

theorem getVal_setKey_isSome {m : AssocMap} {k : String} (k₁ v : String)
    (h : (getVal m k).isSome = true) :
    (getVal (setKey m k₁ v) k).isSome = true := by
  by_cases hk : k₁ = k
  · simp [setKey, getVal, hk]
  · simpa [setKey, getVal, hk] using h

/-! ### Concrete scenarios used by the claims -/

def fileRecC1 : ConfigDict :=
  { database := [("host", "dbserver")], fractal := [("port", "7777")],
    base_folder := some "/base" }

def cliCfgC1 : ConfigDict :=
  { database := [], fractal := [("port", "8888")], base_folder := none }

def worldC1 : World :=
  { baseDirExists := true, configFile := some fileRecC1, dataDirExists := true }

def recOldC2 : ConfigDict :=
  { database := [("password", "oldpw")], fractal := [("port", "7777")],
    base_folder := some "/base" }

def worldC2 : World :=
  { baseDirExists := true, configFile := some recOldC2, dataDirExists := true }

def cliCfgC2 : ConfigDict :=
  { database := [("password", "newpw")], fractal := [], base_folder := some "/base" }

/-! ### Claims -/

/-- C1: the spec claims CLI-supplied server-settings (fractal) fields
override the persisted record in the merged view of `config`/`start`.
The code does the opposite: line 158 builds
`{**config_dict.pop("fractal"), **file_dict.pop("fractal")}`, so the file
dictionary — which always contains every fractal field — overrides the
CLI value.  Here the persisted record holds port 7777, the CLI supplies
port 8888, and the merged (and printed) view keeps 7777, contradicting
the claim and the source's own comment on line 157. -/
theorem merged_config_file_overrides_cli :
    getVal cliCfgC1.fractal "port" = some "8888"
  ∧ getVal (dictFull fileRecC1).fractal "port" = some "7777"
  ∧ getVal (mergedConfig fileRecC1 cliCfgC1).fractal "port" = some "7777"
  ∧ (main Cmd.config worldC1 cliCfgC1 false "").trace
      = [Action.printRecord (dictFull (mergedConfig fileRecC1 cliCfgC1))]
  ∧ getVal (dictFull (mergedConfig fileRecC1 cliCfgC1)).fractal "port" = some "7777" := by
  exact ⟨rfl, rfl, rfl, rfl, rfl⟩

/-- C2: `init --overwrite` on a base directory whose configuration file
exists, given a typed confirmation differing from the sentinel, aborts
with a non-zero exit (in fact the uncaught `NameError` of line 80,
raised before the prompt is ever shown), removes no data directory,
shuts nothing down, writes nothing, and leaves the persisted record and
data directory unchanged; the shutdown/removal pair runs only when the
input equals the sentinel — indeed it never runs at all, for any typed
input. -/
theorem init_wrong_confirmation_aborts (w : World) (cfg : ConfigDict) (inp : String)
    (hinp : inp ≠ confirmationSentinel) (hfile : w.configFile.isSome = true) :
    abortsNonZero (server_init w cfg true inp).outcome = true
  ∧ Action.removeDataDir ∉ (server_init w cfg true inp).trace
  ∧ Action.shutdownPostgres ∉ (server_init w cfg true inp).trace
  ∧ (∀ p c, Action.writeFileAt p c ∉ (server_init w cfg true inp).trace)
  ∧ (applyTrace w (server_init w cfg true inp).trace).configFile = w.configFile
  ∧ (applyTrace w (server_init w cfg true inp).trace).dataDirExists = w.dataDirExists
  ∧ (∀ inp₂, Action.removeDataDir ∉ (server_init w cfg true inp₂).trace) := by
  exact ⟨rfl, by simp [server_init], by simp [server_init],
    fun p c => by simp [server_init], rfl, rfl,
    fun inp₂ => by simp [server_init]⟩

/-- C2 witness. -/
theorem init_wrong_confirmation_aborts_witness :
    ("no" ≠ confirmationSentinel) ∧ (worldC2.configFile.isSome = true)
  ∧ (abortsNonZero (server_init worldC2 cliCfgC2 true "no").outcome = true
    ∧ Action.removeDataDir ∉ (server_init worldC2 cliCfgC2 true "no").trace
    ∧ Action.shutdownPostgres ∉ (server_init worldC2 cliCfgC2 true "no").trace
    ∧ (∀ p c, Action.writeFileAt p c ∉ (server_init worldC2 cliCfgC2 true "no").trace)
    ∧ (applyTrace worldC2 (server_init worldC2 cliCfgC2 true "no").trace).configFile
        = worldC2.configFile
    ∧ (applyTrace worldC2 (server_init worldC2 cliCfgC2 true "no").trace).dataDirExists
        = worldC2.dataDirExists
    ∧ (∀ inp₂, Action.removeDataDir ∉ (server_init worldC2 cliCfgC2 true inp₂).trace)) :=
  ⟨by decide, by decide,
   init_wrong_confirmation_aborts worldC2 cliCfgC2 "no" (by decide) (by decide)⟩

/-- C5: the spec claims `start` with a valid persisted configuration
constructs the server runtime and blocks in the listener's event loop.
The code raises a bare `Exception` at line 166 immediately after the
merge — every branch of `main` other than `init`/`config` is
unreachable dead code — so `start` performs no construction at all. -/
theorem start_raises_before_any_runtime :
    (main Cmd.start worldC1 cliCfgC1 false "").outcome = Outcome.raisedException
  ∧ (main Cmd.start worldC1 cliCfgC1 false "").trace = [] := by
  exact ⟨rfl, rfl⟩

/-- The trace of a successful `DQMServer.__init__` with no logfile. -/
def dqmNormalTrace (port : Nat) : List DqmAction :=
  [DqmAction.setLoggerLevel, DqmAction.logInfo "Logfile set", DqmAction.dbConnect,
   DqmAction.getLoop, DqmAction.appListen port, DqmAction.logInfo "initialized"]

/-- C10: constructing `DQMServer` with any non-None `logfile_name`
raises `AttributeError` (line 36 reads `.logfile` off the string) before
the database socket or listener exists; with `logfile_name=None` the
construction succeeds with no file handler attached. -/
theorem dqm_init_logfile_attribute_bug (port : Nat) (s : String) :
    dqm_init port (some s)
      = DqmInitResult.raised [DqmAction.setLoggerLevel] "AttributeError"
  ∧ DqmAction.dbConnect ∉ [DqmAction.setLoggerLevel]
  ∧ (∀ q, DqmAction.appListen q ∉ [DqmAction.setLoggerLevel])
  ∧ dqm_init port none = DqmInitResult.ok (dqmNormalTrace port)
  ∧ (∀ p, DqmAction.addFileHandler p ∉ dqmNormalTrace port)
  ∧ DqmAction.dbConnect ∈ dqmNormalTrace port := by
  refine ⟨rfl, by simp, fun q => by simp, rfl, fun p => by simp [dqmNormalTrace],
    by simp [dqmNormalTrace]⟩

/-- C3: the claim says `init` without the overwrite flag on a base
directory whose configuration file exists exits with code 2.  In fact
line 80 evaluates `args.get("overwrite", False)` with `args` undefined,
so the run raises `NameError` — the interpreter aborts with a traceback
and exit status 1 — before the existence check of line 83; the exit-2
branch of lines 86-88 is unreachable.  The persisted record and the
data directory are still left unchanged (only the `exist_ok` mkdir of
the already existing base directory runs). -/
theorem init_existing_raises_name_error :
    (server_init worldC1 cliCfgC1 false "x").outcome = Outcome.raisedNameError
  ∧ Outcome.raisedNameError ≠ Outcome.exited 2
  ∧ abortsNonZero Outcome.raisedNameError = true
  ∧ (server_init worldC1 cliCfgC1 false "x").trace = [Action.mkdirBase]
  ∧ applyTrace worldC1 (server_init worldC1 cliCfgC1 false "x").trace = worldC1 := by
  exact ⟨rfl, by decide, rfl, rfl, by decide⟩

/-- C4: the claim wants data-directory removal confined to the
destructive-overwrite path of `init`, with the postgres shutdown
preceding it there.  On the code, no run of any operation ever emits the
removal or the shutdown at all: `config` and `start` have no such calls,
and `init` raises `NameError` at line 80 before its destructive branch
(lines 100-101) can be reached — so removal happens on no path, and in
particular on no path outside the destructive-overwrite protocol. -/
theorem no_operation_removes_data (cmd : Cmd) (w : World) (cfg : ConfigDict)
    (ov : Bool) (inp : String) :
    Action.removeDataDir ∉ (main cmd w cfg ov inp).trace
  ∧ Action.shutdownPostgres ∉ (main cmd w cfg ov inp).trace := by
  have key : ∀ b : Bool, Action.removeDataDir ∉ (mainNonInit w cfg b).trace
      ∧ Action.shutdownPostgres ∉ (mainNonInit w cfg b).trace := by
    intro b
    by_cases hb : w.baseDirExists
    · cases hcf : w.configFile with
      | none => exact ⟨by simp [mainNonInit, hb, hcf], by simp [mainNonInit, hb, hcf]⟩
      | some r =>
        cases b with
        | false =>
          exact ⟨by simp [mainNonInit, hb, hcf], by simp [mainNonInit, hb, hcf]⟩
        | true =>
          exact ⟨by simp [mainNonInit, hb, hcf, server_config],
            by simp [mainNonInit, hb, hcf, server_config]⟩
    · exact ⟨by simp [mainNonInit, hb], by simp [mainNonInit, hb]⟩
  cases cmd with
  | init => exact ⟨by simp [main, server_init], by simp [main, server_init]⟩
  | config => exact key true
  | start => exact key false

/-- C7: `config`/`start` on a missing base directory or missing
configuration file report the missing path and exit with code 1 before
any merge, datastore action or write; the on-disk state is unchanged. -/
theorem missing_config_exits_one (cmd : Cmd) (w : World) (cfg : ConfigDict)
    (ov : Bool) (inp : String) (hcmd : cmd ≠ Cmd.init)
    (hmiss : w.baseDirExists = false ∨ w.configFile = none) :
    (main cmd w cfg ov inp).outcome = Outcome.exited 1
  ∧ ((main cmd w cfg ov inp).trace = [Action.reportMissing FPath.basePath]
      ∨ (main cmd w cfg ov inp).trace = [Action.reportMissing FPath.configFilePath])
  ∧ applyTrace w (main cmd w cfg ov inp).trace = w := by
  have key : ∀ b : Bool,
      (mainNonInit w cfg b).outcome = Outcome.exited 1
    ∧ ((mainNonInit w cfg b).trace = [Action.reportMissing FPath.basePath]
        ∨ (mainNonInit w cfg b).trace = [Action.reportMissing FPath.configFilePath])
    ∧ applyTrace w (mainNonInit w cfg b).trace = w := by
    intro b
    rcases hmiss with h | h
    · refine ⟨by simp [mainNonInit, h], Or.inl (by simp [mainNonInit, h]), ?_⟩
      rw [show (mainNonInit w cfg b).trace = [Action.reportMissing FPath.basePath] by
        simp [mainNonInit, h]]
      rfl
    · by_cases hb : w.baseDirExists
      · refine ⟨by simp [mainNonInit, hb, h], Or.inr (by simp [mainNonInit, hb, h]), ?_⟩
        rw [show (mainNonInit w cfg b).trace
            = [Action.reportMissing FPath.configFilePath] by simp [mainNonInit, hb, h]]
        rfl
      · refine ⟨by simp [mainNonInit, hb], Or.inl (by simp [mainNonInit, hb]), ?_⟩
        rw [show (mainNonInit w cfg b).trace = [Action.reportMissing FPath.basePath] by
          simp [mainNonInit, hb]]
        rfl
  cases cmd with
  | init => exact absurd rfl hcmd
  | config => exact key true
  | start => exact key false

/-- C7 witness. -/
theorem missing_config_exits_one_witness :
    (main Cmd.config ⟨false, none, false⟩ cliCfgC1 false "").outcome = Outcome.exited 1
  ∧ ((main Cmd.config ⟨false, none, false⟩ cliCfgC1 false "").trace
        = [Action.reportMissing FPath.basePath]
      ∨ (main Cmd.config ⟨false, none, false⟩ cliCfgC1 false "").trace
        = [Action.reportMissing FPath.configFilePath])
  ∧ applyTrace ⟨false, none, false⟩
      (main Cmd.config ⟨false, none, false⟩ cliCfgC1 false "").trace
      = ⟨false, none, false⟩ :=
  missing_config_exits_one Cmd.config ⟨false, none, false⟩ cliCfgC1 false ""
    (by decide) (Or.inl rfl)

def secretRec : ConfigDict :=
  { database := [("password", "hunter2"), ("host", "h")], fractal := [],
    base_folder := some "/base" }

def worldC6 : World :=
  { baseDirExists := true, configFile := some secretRec, dataDirExists := true }

def emptyCli : ConfigDict := { database := [], fractal := [], base_folder := none }

/-- C6 counterexample: the `config` show operation (`server_config`,
lines 130-133) prints `config.dict()` with no redaction, so a persisted
password appears in clear text in the printed record — refuting the
claim that every configuration echo redacts the secret. -/
theorem config_show_prints_plaintext_password :
    (main Cmd.config worldC6 emptyCli false "").trace
      = [Action.printRecord (dictFull (mergedConfig secretRec emptyCli))]
  ∧ getVal (dictFull (mergedConfig secretRec emptyCli)).database "password"
      = some "hunter2"
  ∧ "hunter2" ≠ "**************" := by
  exact ⟨rfl, rfl, by decide⟩

/-- C6 amended: no operation ever prints a redacted record.  The
`config` show operation prints the merged record verbatim, with the
stored password in clear text, and `init` never prints or writes
anything at all: it raises `NameError` at line 80 before its redacted
echo (lines 113-117) and its configuration write (line 125) are
reached, so the record persisted on disk is never rewritten by these
operations. -/
theorem config_show_unredacted_init_never_echoes (w : World) (cfg : ConfigDict)
    (ov : Bool) (inp : String) :
    (∀ c, Action.printRecord c ∉ (server_init w cfg ov inp).trace)
  ∧ (∀ p c, Action.writeFileAt p c ∉ (server_init w cfg ov inp).trace)
  ∧ (server_init w cfg ov inp).outcome = Outcome.raisedNameError
  ∧ (∀ c, (server_config c).trace = [Action.printRecord (dictFull c)]) := by
  exact ⟨fun c => by simp [server_init], fun p c => by simp [server_init], rfl,
    fun c => rfl⟩

/-- The write-temp-then-rename property asserted by the spec (§4.2),
stated over a trace: the configuration file path is never written
directly, and the record reaches it through a rename from some other
path. -/
def usesTempRename (tr : List Action) : Prop :=
  (∀ c, Action.writeFileAt FPath.configFilePath c ∉ tr)
  ∧ ∃ p c, p ≠ FPath.configFilePath ∧ Action.writeFileAt p c ∈ tr
      ∧ Action.rename p FPath.configFilePath ∈ tr

def worldFresh : World :=
  { baseDirExists := false, configFile := none, dataDirExists := false }

def cliCfgC8 : ConfigDict :=
  { database := [("host", "h")], fractal := [("port", "1234")],
    base_folder := some "/base" }

/-- C8 counterexample: `init` on a fresh base directory performs no
write-temp-then-rename replace of the configuration file — the run
raises `NameError` at line 80 and never reaches the write of line 125,
so its trace contains no write and no rename at all. -/
theorem config_write_not_temp_rename :
    ¬ usesTempRename (server_init worldFresh cliCfgC8 false "").trace := by
  intro h
  rcases h.2 with ⟨p, c, hne, hw, hr⟩
  simp [server_init] at hw

/-- C8 amended: no run of any operation writes the configuration file
(or any path) or performs a rename: `init` — the only operation with a
write — raises `NameError` at line 80 before the `write_text` of
line 125, and that coded write is itself a plain direct write with no
temporary file or rename; no atomic replace exists in the program. -/
theorem config_file_never_written (cmd : Cmd) (w : World) (cfg : ConfigDict)
    (ov : Bool) (inp : String) :
    (∀ p c, Action.writeFileAt p c ∉ (main cmd w cfg ov inp).trace)
  ∧ (∀ s d, Action.rename s d ∉ (main cmd w cfg ov inp).trace) := by
  have key : ∀ b : Bool,
      (∀ p c, Action.writeFileAt p c ∉ (mainNonInit w cfg b).trace)
    ∧ (∀ s d, Action.rename s d ∉ (mainNonInit w cfg b).trace) := by
    intro b
    by_cases hb : w.baseDirExists
    · cases hcf : w.configFile with
      | none =>
        exact ⟨fun p c => by simp [mainNonInit, hb, hcf],
          fun s d => by simp [mainNonInit, hb, hcf]⟩
      | some r =>
        cases b with
        | false =>
          exact ⟨fun p c => by simp [mainNonInit, hb, hcf],
            fun s d => by simp [mainNonInit, hb, hcf]⟩
        | true =>
          exact ⟨fun p c => by simp [mainNonInit, hb, hcf, server_config],
            fun s d => by simp [mainNonInit, hb, hcf, server_config]⟩
    · exact ⟨fun p c => by simp [mainNonInit, hb], fun s d => by simp [mainNonInit, hb]⟩
  cases cmd with
  | init =>
    exact ⟨fun p c => by simp [main, server_init], fun s d => by simp [main, server_init]⟩
  | config => exact key true
  | start => exact key false

/-! ### `parse_args` routing lemmas (claim C9) -/

theorem routeArg_database_mono (acc : ParsedArgs) (kv : String × Option String)
    {k : String} (h : (getVal acc.database k).isSome = true) :
    (getVal (routeArg acc kv).database k).isSome = true := by
  rcases kv with ⟨k₁, v₁⟩
  cases v₁ with
  | none => simpa [routeArg] using h
  | some v =>
    by_cases h1 : containsSubstr k₁ "db" = true
    · simpa [routeArg, h1] using getVal_setKey_isSome (String.replace k₁ "db_" "") v h
    · by_cases h2 : k₁ ∈ fractalFieldNames
      · simpa [routeArg, h1, h2] using h
      · simpa [routeArg, h1, h2] using h

theorem foldl_database_mono (l : List (String × Option String)) (acc : ParsedArgs)
    {k : String} (h : (getVal acc.database k).isSome = true) :
    (getVal (l.foldl routeArg acc).database k).isSome = true := by
  induction l generalizing acc with
  | nil => simpa using h
  | cons kv rest ih => exact ih _ (routeArg_database_mono acc kv h)

theorem foldl_database_present (l : List (String × Option String)) (acc : ParsedArgs)
    {k v : String} (hmem : (k, some v) ∈ l) (hdb : containsSubstr k "db" = true) :
    (getVal (l.foldl routeArg acc).database (String.replace k "db_" "")).isSome
      = true := by
  induction l generalizing acc with
  | nil => simp at hmem
  | cons kv rest ih =>
    rcases List.mem_cons.mp hmem with heq | htail
    · subst heq
      show (getVal (rest.foldl routeArg (routeArg acc (k, some v))).database
        (String.replace k "db_" "")).isSome = true
      apply foldl_database_mono
      simp [routeArg, hdb, setKey, getVal]
    · exact ih _ htail

theorem routeArg_fractal_none (acc : ParsedArgs) (kv : String × Option String)
    {k : String} (hdb : containsSubstr k "db" = true)
    (h : getVal acc.fractal k = none) : getVal (routeArg acc kv).fractal k = none := by
  rcases kv with ⟨k₁, v₁⟩
  cases v₁ with
  | none => simpa [routeArg] using h
  | some v =>
    by_cases h1 : containsSubstr k₁ "db" = true
    · simpa [routeArg, h1] using h
    · by_cases h2 : k₁ ∈ fractalFieldNames
      · have hne : k₁ ≠ k := fun he => h1 (he ▸ hdb)
        simpa [routeArg, h1, h2, setKey, getVal, hne] using h
      · simpa [routeArg, h1, h2] using h

theorem routeArg_other_none (acc : ParsedArgs) (kv : String × Option String)
    {k : String} (hdb : containsSubstr k "db" = true)
    (h : getVal acc.other k = none) : getVal (routeArg acc kv).other k = none := by
  rcases kv with ⟨k₁, v₁⟩
  cases v₁ with
  | none => simpa [routeArg] using h
  | some v =>
    by_cases h1 : containsSubstr k₁ "db" = true
    · simpa [routeArg, h1] using h
    · by_cases h2 : k₁ ∈ fractalFieldNames
      · simpa [routeArg, h1, h2] using h
      · have hne : k₁ ≠ k := fun he => h1 (he ▸ hdb)
        simpa [routeArg, h1, h2, setKey, getVal, hne] using h

theorem foldl_fractal_none (l : List (String × Option String)) (acc : ParsedArgs)
    {k : String} (hdb : containsSubstr k "db" = true)
    (h : getVal acc.fractal k = none) :
    getVal (l.foldl routeArg acc).fractal k = none := by
  induction l generalizing acc with
  | nil => simpa using h
  | cons kv rest ih => exact ih _ (routeArg_fractal_none acc kv hdb h)

theorem foldl_other_none (l : List (String × Option String)) (acc : ParsedArgs)
    {k : String} (hdb : containsSubstr k "db" = true)
    (h : getVal acc.other k = none) :
    getVal (l.foldl routeArg acc).other k = none := by
  induction l generalizing acc with
  | nil => simpa using h
  | cons kv rest ih => exact ih _ (routeArg_other_none acc kv hdb h)

theorem foldl_route_filter (l : List (String × Option String)) (acc : ParsedArgs) :
    (l.filter (fun kv => kv.2.isSome)).foldl routeArg acc = l.foldl routeArg acc := by
  induction l generalizing acc with
  | nil => rfl
  | cons kv rest ih =>
    rcases kv with ⟨k₁, v₁⟩
    cases v₁ with
    | none => simpa [List.filter_cons, routeArg] using ih acc
    | some v => simpa [List.filter_cons] using ih (routeArg acc (k₁, some v))

/-- C9: in `parse_args` post-processing (lines 51-63), every parsed key
with a non-None value whose name contains `"db"` anywhere is routed into
the database group under its name with every `"db_"` removed, and never
appears under its own name in the fractal or top-level groups; keys with
value None contribute nothing to any group. -/
theorem parse_args_db_routing (args : List (String × Option String)) (k v : String)
    (hmem : (k, some v) ∈ args) (hdb : containsSubstr k "db" = true) :
    (getVal (parse_args_route args).database (String.replace k "db_" "")).isSome = true
  ∧ getVal (parse_args_route args).fractal k = none
  ∧ getVal (parse_args_route args).other k = none
  ∧ parse_args_route (args.filter (fun kv => kv.2.isSome)) = parse_args_route args := by
  exact ⟨foldl_database_present args _ hmem hdb,
    foldl_fractal_none args _ hdb rfl,
    foldl_other_none args _ hdb rfl,
    foldl_route_filter args _⟩

/-- C9 witness: the key `jobdb_size` contains `"db"` without the `db_`
prefix and is routed into the database group as `jobsize`. -/
theorem parse_args_db_routing_witness :
    (getVal (parse_args_route [("jobdb_size", some "9"), ("port", (none : Option String))]).database
        (String.replace "jobdb_size" "db_" "")).isSome = true
  ∧ getVal (parse_args_route [("jobdb_size", some "9"), ("port", (none : Option String))]).fractal
      "jobdb_size" = none
  ∧ getVal (parse_args_route [("jobdb_size", some "9"), ("port", (none : Option String))]).other
      "jobdb_size" = none
  ∧ parse_args_route
      ([("jobdb_size", some "9"), ("port", (none : Option String))].filter
        (fun kv => kv.2.isSome))
      = parse_args_route [("jobdb_size", some "9"), ("port", (none : Option String))] :=
  parse_args_db_routing [("jobdb_size", some "9"), ("port", (none : Option String))]
    "jobdb_size" "9" (by decide) (by decide)

end QCFractal
